import Mathlib

/-!
Shallow embedding of the 4d-sim geometry/lighting pipeline.

The program is a Three.js particle visualizer with two modes:
a 4D hypercube lattice rotated in the XY and ZW planes and
perspective-projected to 3D, and a 3D "Indras Net" lattice of
mirror particles lit by three orbiting point lights.

The definitions below are translated from the GLSL vertex and
fragment shaders and the TypeScript functions of the source
(the `part_000` revision, which the specification describes:
matrix interpolation, gridSize^4 lattice, import/export and reset).
Real-number arithmetic stands in for GLSL floats; divisions whose
denominator the code never checks are modelled with an explicit
zero test returning `none` (the non-finite IEEE result).
-/

open Real

/-- A 4-component vector, as GLSL `vec4`. -/
structure Vec4 where
  x : ℝ
  y : ℝ
  z : ℝ
  w : ℝ


/-- A 3-component vector, as GLSL `vec3`. -/
structure Vec3 where
  x : ℝ
  y : ℝ
  z : ℝ


/-- A 4x4 matrix stored as four columns, as GLSL `mat4`
(`m[0]`, `m[1]`, `m[2]`, `m[3]` are the columns). -/
structure Mat4 where
  c0 : Vec4
  c1 : Vec4
  c2 : Vec4
  c3 : Vec4


/-- GLSL scalar `mix(a, b, t) = a*(1-t) + b*t`. -/
noncomputable def glslMix (a b t : ℝ) : ℝ := a * (1 - t) + b * t

/-- GLSL `mix` applied componentwise to two `vec4` columns. -/
noncomputable def mixVec4 (a b : Vec4) (t : ℝ) : Vec4 :=
  ⟨glslMix a.x b.x t, glslMix a.y b.y t, glslMix a.z b.z t, glslMix a.w b.w t⟩

/-- Source `mixMatrix(m1, m2, t)`: element-wise interpolation between two
matrices, column by column (vertex shader, lines 144-151). -/
noncomputable def mixMatrix (m1 m2 : Mat4) (t : ℝ) : Mat4 :=
  ⟨mixVec4 m1.c0 m2.c0 t, mixVec4 m1.c1 m2.c1 t,
   mixVec4 m1.c2 m2.c2 t, mixVec4 m1.c3 m2.c3 t⟩

/-- GLSL matrix-vector product `M * v` (columns weighted by components). -/
noncomputable def mulVec (m : Mat4) (v : Vec4) : Vec4 :=
  ⟨m.c0.x * v.x + m.c1.x * v.y + m.c2.x * v.z + m.c3.x * v.w,
   m.c0.y * v.x + m.c1.y * v.y + m.c2.y * v.z + m.c3.y * v.w,
   m.c0.z * v.x + m.c1.z * v.y + m.c2.z * v.z + m.c3.z * v.w,
   m.c0.w * v.x + m.c1.w * v.y + m.c2.w * v.z + m.c3.w * v.w⟩

/-- Source `rotateXY(pos, angle)`: Givens rotation of the (x, y) pair,
(z, w) untouched (vertex shader, lines 120-129). -/
noncomputable def rotateXY (pos : Vec4) (angle : ℝ) : Vec4 :=
  let s := Real.sin angle
  let c := Real.cos angle
  ⟨c * pos.x - s * pos.y, s * pos.x + c * pos.y, pos.z, pos.w⟩

/-- Source `rotateZW(pos, angle)`: Givens rotation of the (z, w) pair,
(x, y) untouched (vertex shader, lines 131-141). -/
noncomputable def rotateZW (pos : Vec4) (angle : ℝ) : Vec4 :=
  let s := Real.sin angle
  let c := Real.cos angle
  ⟨pos.x, pos.y, c * pos.z - s * pos.w, s * pos.z + c * pos.w⟩

/-- The 4D part of the vertex shader `main` (lines 153-163): interpolate the
two matrices, multiply the base coordinate, then rotate XY, then rotate ZW. -/
noncomputable def vertexTransform (m1 m2 : Mat4) (interp aXY aZW : ℝ)
    (base : Vec4) : Vec4 :=
  let currentMatrix := mixMatrix m1 m2 interp
  let p0 := mulVec currentMatrix base
  let p1 := rotateXY p0 aXY
  rotateZW p1 aZW

/-- Identity `mat4`, the value that `new THREE.Matrix4().fromArray` produces
from `createIdentityMatrix()` (column-major array of the identity). -/
noncomputable def idMat4 : Mat4 :=
  ⟨⟨1, 0, 0, 0⟩, ⟨0, 1, 0, 0⟩, ⟨0, 0, 1, 0⟩, ⟨0, 0, 0, 1⟩⟩

/-- Euclidean length of a `vec4`, GLSL `length(pos)`. -/
noncomputable def length4 (p : Vec4) : ℝ :=
  Real.sqrt (p.x ^ 2 + p.y ^ 2 + p.z ^ 2 + p.w ^ 2)

/-- The color part of the vertex shader `main` (lines 175-180): each channel
is `0.5 + 0.5 * sin(pos4D.w * 2 + phase)` with per-channel phase offsets
0, 2.094 and 4.189 added to `time * colorAnimationSpeed`. -/
noncomputable def vColor (pos4D : Vec4) (time colorAnimationSpeed : ℝ) :
    Vec3 :=
  let colorTime := time * colorAnimationSpeed
  ⟨0.5 + 0.5 * Real.sin (pos4D.w * 2 + colorTime),
   0.5 + 0.5 * Real.sin (pos4D.w * 2 + 2.094),
   0.5 + 0.5 * Real.sin (pos4D.w * 2 + 4.189)⟩

/-- The intensity part of the vertex shader `main` (lines 182-184):
`0.5 + 0.5 * sin(length(pos4D) * 0.3 - colorTime)`. -/
noncomputable def vIntensity (pos4D : Vec4) (time colorAnimationSpeed : ℝ) :
    ℝ :=
  let colorTime := time * colorAnimationSpeed
  0.5 + 0.5 * Real.sin (length4 pos4D * 0.3 - colorTime)

open Classical in
/-- The projection step of the vertex shader `main` (lines 165-168):
`wFactor = 1.0 + pos4D.w * projectionFactor; pos3D = pos4D.xyz / wFactor`.
The code divides unconditionally; a zero denominator is the IEEE
non-finite case and is modelled as `none`. -/
noncomputable def project4Dto3D (pos4D : Vec4) (projectionFactor : ℝ) :
    Option Vec3 :=
  let wFactor := 1 + pos4D.w * projectionFactor
  if wFactor = 0 then none
  else some ⟨pos4D.x / wFactor, pos4D.y / wFactor, pos4D.z / wFactor⟩

/-- One normalized lattice component of `create4DWaveParticles`
(lines 450-453): `(x / (gridSize - 1)) * 2 - 1`, mapping axis index `x`
into [-1, 1].  The code divides by `gridSize - 1` without any check; a
zero denominator (gridSize = 1, the IEEE 0/0 = NaN case) is `none`. -/
def normCoord (gridSize x : ℕ) : Option ℚ :=
  if (gridSize : ℚ) - 1 = 0 then none
  else some ((x : ℚ) / ((gridSize : ℚ) - 1) * 2 - 1)

/-- Source `create4DWaveParticles` lattice loop (lines 439-459): four nested
loops over x, y, z, w (outer to inner), each from 0 to gridSize - 1,
pushing the normalized 4D coordinate. -/
def create4DWaveParticles (gridSize : ℕ) :
    List (Option ℚ × Option ℚ × Option ℚ × Option ℚ) :=
  (List.range gridSize).flatMap fun x =>
    (List.range gridSize).flatMap fun y =>
      (List.range gridSize).flatMap fun z =>
        (List.range gridSize).map fun w =>
          (normCoord gridSize x, normCoord gridSize y,
           normCoord gridSize z, normCoord gridSize w)

/-- One component of the Indras Net lattice, `createIndrasNetParticles`
(lines 513-516): `(x / (gridSize - 1) - 0.5) * gridSize * spacing` with
`spacing = 0.5`; again an unchecked division by `gridSize - 1`. -/
def normCoordIndra (gridSize x : ℕ) : Option ℚ :=
  if (gridSize : ℚ) - 1 = 0 then none
  else some (((x : ℚ) / ((gridSize : ℚ) - 1) - 1 / 2) * gridSize * (1 / 2))

/-- Source `createIndrasNetParticles` lattice loop (lines 504-521): three
nested loops over x, y, z, each from 0 to gridSize - 1. -/
def createIndrasNetParticles (gridSize : ℕ) :
    List (Option ℚ × Option ℚ × Option ℚ) :=
  (List.range gridSize).flatMap fun x =>
    (List.range gridSize).flatMap fun y =>
      (List.range gridSize).map fun z =>
        (normCoordIndra gridSize x, normCoordIndra gridSize y,
         normCoordIndra gridSize z)

/-- Flattening a rectangular nested iteration: binding a `map` over an inner
range into an outer range is one `map` over the product range, with the
outer index recovered by division and the inner by remainder. -/
theorem range_bind_range_map {α : Type} (g : ℕ → ℕ → α) (a b : ℕ) :
    (List.range a).flatMap (fun x => (List.range b).map (g x)) =
      (List.range (a * b)).map (fun i => g (i / b) (i % b)) := by
  induction a with
  | zero => simp
  | succ a ih =>
    rw [List.range_succ, Nat.succ_mul, List.range_add]
    simp only [List.flatMap_append, List.flatMap_cons, List.flatMap_nil,
      List.append_nil, List.map_append, List.map_map, ih]
    congr 1
    apply List.map_congr_left
    intro j hj
    have hjb : j < b := List.mem_range.mp hj
    have hb : 0 < b := by omega
    have hd : (a * b + j) / b = a := by
      rw [Nat.mul_comm a b, Nat.mul_add_div hb, Nat.div_eq_of_lt hjb,
        Nat.add_zero]
    have hm : (a * b + j) % b = j := by
      rw [Nat.mul_comm a b, Nat.mul_add_mod, Nat.mod_eq_of_lt hjb]
    simp [Function.comp, hd, hm]

/-- The 4D lattice in closed form: one map over `n^4` indices, the four axis
indices recovered from the particle index by division and remainder in the
nested x, y, z, w loop order. -/
theorem create4DWaveParticles_eq_map (n : ℕ) :
    create4DWaveParticles n = (List.range (n ^ 4)).map (fun i =>
      (normCoord n (i / n ^ 3), normCoord n (i % n ^ 3 / n ^ 2),
       normCoord n (i % n ^ 3 % n ^ 2 / n),
       normCoord n (i % n ^ 3 % n ^ 2 % n))) := by
  have e2 : n * n = n ^ 2 := by ring
  have e3 : n * (n * n) = n ^ 3 := by ring
  have e4 : n * (n * (n * n)) = n ^ 4 := by ring
  unfold create4DWaveParticles
  simp only [range_bind_range_map]
  simp only [e4]
  simp only [e3]
  simp only [e2]

/-- The 4D lattice always has exactly `gridSize ^ 4` entries. -/
theorem create4DWaveParticles_length (n : ℕ) :
    (create4DWaveParticles n).length = n ^ 4 := by
  rw [create4DWaveParticles_eq_map, List.length_map, List.length_range]

/-- For a valid resolution every normalized component is a finite value
in [-1, 1]. -/
theorem normCoord_bounds {n x : ℕ} (hn : 2 ≤ n) (hx : x < n) :
    ∃ q, normCoord n x = some q ∧ -1 ≤ q ∧ q ≤ 1 := by
  have h2 : (2 : ℚ) ≤ (n : ℚ) := by exact_mod_cast hn
  have hden : (0 : ℚ) < (n : ℚ) - 1 := by linarith
  have hne : (n : ℚ) - 1 ≠ 0 := ne_of_gt hden
  refine ⟨(x : ℚ) / ((n : ℚ) - 1) * 2 - 1, ?_, ?_, ?_⟩
  · simp [normCoord, hne]
  · have hx0 : (0 : ℚ) ≤ (x : ℚ) := by positivity
    have := div_nonneg hx0 (le_of_lt hden)
    linarith
  · have hxn : (x : ℚ) ≤ (n : ℚ) - 1 := by
      have : (x : ℚ) + 1 ≤ (n : ℚ) := by exact_mod_cast hx
      linarith
    have := (div_le_one hden).mpr hxn
    linarith

/-- C1: for every resolution n ≥ 2 the 4D-mode lattice generator produces
exactly n^4 base coordinates, each of the four components lies in [-1, 1],
and the enumeration is the fixed nested x, y, z, w order: the particle at
index i is the coordinate determined by the base-n digits of i, so repeated
generation with the same n yields the identical list. -/
theorem c1_lattice4D_count_range_order (n : ℕ) (hn : 2 ≤ n) :
    (create4DWaveParticles n).length = n ^ 4 ∧
    (∀ c ∈ create4DWaveParticles n,
      (∃ q, c.1 = some q ∧ -1 ≤ q ∧ q ≤ 1) ∧
      (∃ q, c.2.1 = some q ∧ -1 ≤ q ∧ q ≤ 1) ∧
      (∃ q, c.2.2.1 = some q ∧ -1 ≤ q ∧ q ≤ 1) ∧
      (∃ q, c.2.2.2 = some q ∧ -1 ≤ q ∧ q ≤ 1)) ∧
    create4DWaveParticles n = (List.range (n ^ 4)).map (fun i =>
      (normCoord n (i / n ^ 3), normCoord n (i % n ^ 3 / n ^ 2),
       normCoord n (i % n ^ 3 % n ^ 2 / n),
       normCoord n (i % n ^ 3 % n ^ 2 % n))) := by
  refine ⟨create4DWaveParticles_length n, ?_, create4DWaveParticles_eq_map n⟩
  intro c hc
  simp only [create4DWaveParticles, List.mem_flatMap, List.mem_map,
    List.mem_range] at hc
  obtain ⟨x, hx, y, hy, z, hz, w, hw, rfl⟩ := hc
  exact ⟨normCoord_bounds hn hx, normCoord_bounds hn hy,
    normCoord_bounds hn hz, normCoord_bounds hn hw⟩

/-- Witness for C1, instantiated at resolution 2. -/
theorem c1_lattice4D_count_range_order_witness :
    2 ≤ 2 ∧ (create4DWaveParticles 2).length = 2 ^ 4 :=
  ⟨by decide, (c1_lattice4D_count_range_order 2 (by decide)).1⟩

/-- C2: the vertex shader transform applies, in this fixed order, the
element-wise interpolated matrix to the base coordinate, then the XY
Givens rotation (leaving z, w untouched), then the ZW rotation (leaving
x, y untouched): the transformed point equals
rotateZW (rotateXY (mixMatrix m1 m2 t * base) aXY) aZW. -/
theorem c2_transform_order (m1 m2 : Mat4) (interp aXY aZW : ℝ)
    (base : Vec4) :
    vertexTransform m1 m2 interp aXY aZW base =
      rotateZW (rotateXY (mulVec (mixMatrix m1 m2 interp) base) aXY) aZW ∧
    (∀ p a, (rotateXY p a).z = p.z ∧ (rotateXY p a).w = p.w) ∧
    (∀ p a, (rotateZW p a).x = p.x ∧ (rotateZW p a).y = p.y) := by
  exact ⟨rfl, fun p a => ⟨rfl, rfl⟩, fun p a => ⟨rfl, rfl⟩⟩

/-- Both bounds of one color channel or intensity sample: a sinusoid scaled
by 0.5 around 0.5 stays inside [0, 1]. -/
theorem half_plus_half_sin_bounds (t : ℝ) :
    0 ≤ 0.5 + 0.5 * Real.sin t ∧ 0.5 + 0.5 * Real.sin t ≤ 1 := by
  have h1 := Real.neg_one_le_sin t
  have h2 := Real.sin_le_one t
  constructor <;> nlinarith

/-- C3: each RGB channel of the color field and the scalar intensity lie
in [0, 1] for every transformed coordinate, time and animation speed. -/
theorem c3_color_intensity_bounded (p : Vec4) (time cas : ℝ) :
    (0 ≤ (vColor p time cas).x ∧ (vColor p time cas).x ≤ 1) ∧
    (0 ≤ (vColor p time cas).y ∧ (vColor p time cas).y ≤ 1) ∧
    (0 ≤ (vColor p time cas).z ∧ (vColor p time cas).z ≤ 1) ∧
    (0 ≤ vIntensity p time cas ∧ vIntensity p time cas ≤ 1) := by
  dsimp only [vColor, vIntensity]
  exact ⟨half_plus_half_sin_bounds _, half_plus_half_sin_bounds _,
    half_plus_half_sin_bounds _, half_plus_half_sin_bounds _⟩

/-- C8: with both matrices the identity and both accumulated angles zero,
the vertex transform returns the base coordinate unchanged, for every
interpolation fraction. -/
theorem c8_identity_transform (base : Vec4) (interp : ℝ) :
    vertexTransform idMat4 idMat4 interp 0 0 base = base := by
  cases base with
  | mk bx b2 b3 b4 =>
    simp only [vertexTransform, mixMatrix, mixVec4, glslMix, mulVec,
      rotateXY, rotateZW, idMat4, Real.sin_zero, Real.cos_zero,
      Vec4.mk.injEq]
    refine ⟨?_, ?_, ?_, ?_⟩ <;> ring

/-- C9: successive planar rotations on the same plane add their angles, on
the XY plane and on the ZW plane alike; in particular two rotations by pi/2
equal one rotation by pi. -/
theorem c9_rotation_additive (p : Vec4) (a b : ℝ) :
    rotateXY (rotateXY p a) b = rotateXY p (a + b) ∧
    rotateZW (rotateZW p a) b = rotateZW p (a + b) ∧
    rotateXY (rotateXY p (π / 2)) (π / 2) = rotateXY p π ∧
    rotateZW (rotateZW p (π / 2)) (π / 2) = rotateZW p π := by
  have hxy : ∀ u v : ℝ, rotateXY (rotateXY p u) v = rotateXY p (u + v) := by
    intro u v
    simp only [rotateXY, Vec4.mk.injEq, Real.cos_add, Real.sin_add]
    refine ⟨by ring, by ring, trivial, trivial⟩
  have hzw : ∀ u v : ℝ, rotateZW (rotateZW p u) v = rotateZW p (u + v) := by
    intro u v
    simp only [rotateZW, Vec4.mk.injEq, Real.cos_add, Real.sin_add]
    refine ⟨trivial, trivial, by ring, by ring⟩
  have hpi : (π / 2 + π / 2 : ℝ) = π := by ring
  exact ⟨hxy a b, hzw a b, by rw [hxy, hpi], by rw [hzw, hpi]⟩

/-- C4 counterexample: at the transformed coordinate (1, 1, 1, -1) with
projectionFactor 1 the denominator wFactor is exactly zero, and the
unguarded division emits the non-finite result to the renderer; the
particle is neither skipped nor replaced by a finite value. -/
theorem c4_counterexample : project4Dto3D ⟨1, 1, 1, -1⟩ 1 = none := by
  unfold project4Dto3D
  norm_num

/-- C4 amended: the projection contains no guard at all: whenever
wFactor = 1 + p.w * projectionFactor is nonzero the output is the finite
componentwise quotient, and when wFactor is zero the division still
happens and its non-finite result is emitted (see the counterexample);
nothing is skipped, clamped, or replaced. -/
theorem c4_projection_division (p : Vec4) (pf : ℝ)
    (h : 1 + p.w * pf ≠ 0) :
    project4Dto3D p pf =
      some ⟨p.x / (1 + p.w * pf), p.y / (1 + p.w * pf),
            p.z / (1 + p.w * pf)⟩ := by
  simp [project4Dto3D, h]

/-- Witness for the amended C4, at p = (5, 6, 7, 0), projectionFactor 0. -/
theorem c4_projection_division_witness :
    (1 : ℝ) + (0 : ℝ) * (0 : ℝ) ≠ 0 ∧
    project4Dto3D ⟨5, 6, 7, 0⟩ 0 =
      some ⟨5 / (1 + 0 * 0), 6 / (1 + 0 * 0), 7 / (1 + 0 * 0)⟩ :=
  ⟨by norm_num, c4_projection_division ⟨5, 6, 7, 0⟩ 0 (by norm_num)⟩

/-- At resolution 1 the 4D generator runs its loops once and the
normalization divides zero by zero: the sole coordinate is non-finite. -/
theorem create4DWaveParticles_one :
    create4DWaveParticles 1 = [(none, none, none, none)] := by
  simp [create4DWaveParticles, normCoord, List.range_succ, List.range_zero]

/-- At resolution 1 the Indras Net generator likewise emits a single
coordinate of non-finite components. -/
theorem createIndrasNetParticles_one :
    createIndrasNetParticles 1 = [(none, none, none)] := by
  simp [createIndrasNetParticles, normCoordIndra, List.range_succ, List.range_zero]

/-- C6 counterexample: at resolution 1 the generator applies no policy at
all: it runs the loops, performs the 0/0 normalization, and emits a single
coordinate all of whose components are non-finite -- an output equal to no
valid-resolution lattice, so no clamping took place, and no error was
raised (JavaScript 0/0 is NaN, not an exception). -/
theorem c6_counterexample :
    create4DWaveParticles 1 = [(none, none, none, none)] ∧
    createIndrasNetParticles 1 = [(none, none, none)] ∧
    ¬ ∃ m, 2 ≤ m ∧ create4DWaveParticles 1 = create4DWaveParticles m := by
  refine ⟨create4DWaveParticles_one, createIndrasNetParticles_one, ?_⟩
  rintro ⟨m, hm, heq⟩
  have h1 := create4DWaveParticles_length 1
  rw [heq, create4DWaveParticles_length m] at h1
  have h2 : 2 ^ 4 ≤ m ^ 4 := Nat.pow_le_pow_left hm 4
  rw [h1] at h2
  norm_num at h2

/-- C6 amended: for resolutions below 2 the generators neither clamp nor
raise: the nested loops execute as-is, so resolution 0 yields an empty
lattice and resolution 1 divides 0 by 0 in the normalization and yields a
single coordinate with every component non-finite. -/
theorem c6_degenerate_resolution (n : ℕ) (hn : n < 2) :
    (n = 0 → create4DWaveParticles n = [] ∧
      createIndrasNetParticles n = []) ∧
    (n = 1 → create4DWaveParticles n = [(none, none, none, none)] ∧
      createIndrasNetParticles n = [(none, none, none)]) := by
  constructor
  · rintro rfl
    exact ⟨by decide, by decide⟩
  · rintro rfl
    exact ⟨create4DWaveParticles_one, createIndrasNetParticles_one⟩

/-- Witness for the amended C6, at resolution 1. -/
theorem c6_degenerate_resolution_witness :
    create4DWaveParticles 1 = [(none, none, none, none)] ∧
    createIndrasNetParticles 1 = [(none, none, none)] :=
  (c6_degenerate_resolution 1 (by decide)).2 rfl

/-- GLSL `dot` on `vec3`. -/
noncomputable def dot3 (a b : Vec3) : ℝ := a.x * b.x + a.y * b.y + a.z * b.z

/-- Componentwise sum of two `vec3` values. -/
noncomputable def add3 (a b : Vec3) : Vec3 := ⟨a.x + b.x, a.y + b.y, a.z + b.z⟩

/-- Componentwise difference of two `vec3` values. -/
noncomputable def sub3 (a b : Vec3) : Vec3 := ⟨a.x - b.x, a.y - b.y, a.z - b.z⟩

/-- A `vec3` scaled by a scalar. -/
noncomputable def scale3 (s : ℝ) (v : Vec3) : Vec3 := ⟨s * v.x, s * v.y, s * v.z⟩

/-- GLSL `length` on `vec3`. -/
noncomputable def len3 (v : Vec3) : ℝ := Real.sqrt (dot3 v v)

/-- GLSL `normalize`: the vector divided by its length. -/
noncomputable def normalize3 (v : Vec3) : Vec3 :=
  ⟨v.x / len3 v, v.y / len3 v, v.z / len3 v⟩

/-- GLSL `reflect(I, N) = I - 2 * dot(N, I) * N`. -/
noncomputable def reflect3 (i n : Vec3) : Vec3 :=
  sub3 i (scale3 (2 * dot3 n i) n)

/-- Clamp to [0, 1], as used inside GLSL `smoothstep`. -/
noncomputable def clamp01 (x : ℝ) : ℝ := max 0 (min 1 x)

/-- GLSL `smoothstep(edge0, edge1, x)`. -/
noncomputable def smoothstep (e0 e1 x : ℝ) : ℝ :=
  let t := clamp01 ((x - e0) / (e1 - e0))
  t * t * (3 - 2 * t)

/-- The contribution of one light in the Indras Net fragment shader (the
repeated block at lines 320-342): specular term from the reflected light
direction, attenuated by `lightIntensity / (1 + dist^2 * 0.05)`, tinting
the light color. -/
noncomputable def lightReflection (lightPos vPosition normal viewDir
    lightColor : Vec3) (lightIntensity : ℝ) : Vec3 :=
  let lightDir := normalize3 (sub3 lightPos vPosition)
  let reflectDir := reflect3 (scale3 (-1) lightDir) normal
  let spec := max (dot3 reflectDir viewDir) 0 ^ (32 : ℕ)
  let d := len3 (sub3 lightPos vPosition)
  let attenuation := lightIntensity / (1 + d * d * 0.05)
  scale3 (spec * attenuation) lightColor

open Classical in
/-- The Indras Net fragment shader `main` (lines 293-352): circular point
discard, soft edge alpha, sphere normal from the point coordinate (second
discard), view direction, three summed light reflections scaled by
`reflectionStrength` over the mirror base tint, plus the center glow
highlight.  Output is the RGB color and the alpha; `none` is a discarded
fragment. -/
noncomputable def indraFragment (pointCoord : ℝ × ℝ)
    (vPosition vViewPosition lp1 lp2 lp3 lc1 lc2 lc3 : Vec3)
    (sharpness opacity reflectionStrength lightIntensity : ℝ) :
    Option (Vec3 × ℝ) :=
  let cx := pointCoord.1 - 0.5
  let cy := pointCoord.2 - 0.5
  let dist := Real.sqrt (cx ^ 2 + cy ^ 2)
  if 0.5 < dist then none
  else
    let innerRadius := glslMix 0.35 0.48 sharpness
    let alpha := 1 - smoothstep innerRadius 0.5 dist
    let nx := cx * 2
    let ny := cy * 2
    let r2 := nx * nx + ny * ny
    if 1 < r2 then none
    else
      let normal : Vec3 := ⟨nx, ny, Real.sqrt (1 - r2)⟩
      let viewDir := normalize3 vViewPosition
      let mirrorBase : Vec3 := ⟨0.9, 0.9, 0.95⟩
      let reflectedColor :=
        add3 (add3 (lightReflection lp1 vPosition normal viewDir lc1
                      lightIntensity)
                   (lightReflection lp2 vPosition normal viewDir lc2
                      lightIntensity))
             (lightReflection lp3 vPosition normal viewDir lc3
                lightIntensity)
      let finalColor : Vec3 :=
        ⟨mirrorBase.x * (0.15 + reflectedColor.x * reflectionStrength),
         mirrorBase.y * (0.15 + reflectedColor.y * reflectionStrength),
         mirrorBase.z * (0.15 + reflectedColor.z * reflectionStrength)⟩
      let centerGlow := (1 - dist * 2) ^ (16 : ℕ)
      some (add3 finalColor (scale3 (centerGlow * 0.8) mirrorBase),
            alpha * opacity)

open Classical in
/-- The ambient/base term the specification describes for a dark scene:
only the mirror-base tint (`0.15 * mirrorBase`) plus the center-glow
highlight, with the same discards and alpha as the fragment shader.
Stated from the words of the specification for comparison with
`indraFragment`. -/
noncomputable def indraAmbientTerm (pointCoord : ℝ × ℝ)
    (sharpness opacity : ℝ) : Option (Vec3 × ℝ) :=
  let cx := pointCoord.1 - 0.5
  let cy := pointCoord.2 - 0.5
  let dist := Real.sqrt (cx ^ 2 + cy ^ 2)
  if 0.5 < dist then none
  else
    let innerRadius := glslMix 0.35 0.48 sharpness
    let alpha := 1 - smoothstep innerRadius 0.5 dist
    let nx := cx * 2
    let ny := cy * 2
    let r2 := nx * nx + ny * ny
    if 1 < r2 then none
    else
      let mirrorBase : Vec3 := ⟨0.9, 0.9, 0.95⟩
      let centerGlow := (1 - dist * 2) ^ (16 : ℕ)
      some (add3 (scale3 0.15 mirrorBase)
              (scale3 (centerGlow * 0.8) mirrorBase),
            alpha * opacity)

/-- With zero light intensity each light contribution vanishes: the
attenuation is 0 / (1 + d^2 * 0.05) = 0. -/
theorem lightReflection_zero_intensity (lightPos vPosition normal viewDir
    lightColor : Vec3) :
    lightReflection lightPos vPosition normal viewDir lightColor 0 =
      ⟨0, 0, 0⟩ := by
  simp [lightReflection, scale3]

/-- C7: with lightIntensity = 0 the reflection model output does not depend
on the three light positions, and equals the ambient/base term alone (the
mirror-base tint plus the center-glow highlight). -/
theorem c7_zero_light_ambient (pc : ℝ × ℝ)
    (pos vview lp1 lp2 lp3 lq1 lq2 lq3 lc1 lc2 lc3 : Vec3)
    (sh op rs : ℝ) :
    indraFragment pc pos vview lp1 lp2 lp3 lc1 lc2 lc3 sh op rs 0 =
      indraFragment pc pos vview lq1 lq2 lq3 lc1 lc2 lc3 sh op rs 0 ∧
    indraFragment pc pos vview lp1 lp2 lp3 lc1 lc2 lc3 sh op rs 0 =
      indraAmbientTerm pc sh op := by
  constructor
  · simp only [indraFragment, lightReflection_zero_intensity]
  · simp only [indraFragment, indraAmbientTerm,
      lightReflection_zero_intensity, add3, scale3]
    split_ifs <;> try rfl
    simp only [Option.some.injEq, Prod.mk.injEq, Vec3.mk.injEq]
    refine ⟨⟨?_, ?_, ?_⟩, trivial⟩ <;> ring

/-- Source `createIdentityMatrix()` (lines 54-61): the flat 16-entry
identity matrix array. -/
def createIdentityMatrix : List ℚ :=
  [1, 0, 0, 0,
   0, 1, 0, 0,
   0, 0, 1, 0,
   0, 0, 0, 1]

/-- The `SimulationParams` record (lines 23-51): every tunable parameter of
the simulation. -/
structure SimulationParams where
  mode : String
  gridSize : ℚ
  rotationSpeedXY : ℚ
  rotationSpeedZW : ℚ
  rotationActiveXY : Bool
  rotationActiveZW : Bool
  particleSize : ℚ
  spread : ℚ
  colorIntensity : ℚ
  colorAnimationSpeed : ℚ
  timeScale : ℚ
  projectionFactor : ℚ
  sharpness : ℚ
  glowIntensity : ℚ
  blendFactor : ℚ
  opacity : ℚ
  blendingMode : String
  depthWrite : Bool
  matrix1 : List ℚ
  matrix2 : List ℚ
  interpolation : ℚ
  reflectionStrength : ℚ
  reflectionRange : ℚ
  lightIntensity : ℚ
  lightSpeed : ℚ

/-- The module state touched by `resetRotation`: the two accumulated
rotation angles (module globals, lines 367-368) and the parameter set. -/
structure AppState where
  angleXY : ℚ
  angleZW : ℚ
  params : SimulationParams

/-- Source `resetRotation()` (lines 692-715): zero both accumulated angles,
restore both matrices to the identity and the interpolation fraction to
0.5; nothing else is written (the remaining statements mirror the same
three parameters into the shader uniforms). -/
def resetRotation (s : AppState) : AppState :=
  { s with
    angleXY := 0
    angleZW := 0
    params := { s.params with
      matrix1 := createIdentityMatrix
      matrix2 := createIdentityMatrix
      interpolation := 0.5 } }

/-- C10: the rotation reset zeroes both accumulated angles, restores both
transform matrices to the identity and the interpolation fraction to 0.5,
and leaves every other field of the parameter set unchanged. -/
theorem c10_reset_rotation (s : AppState) :
    (resetRotation s).angleXY = 0 ∧
    (resetRotation s).angleZW = 0 ∧
    (resetRotation s).params.matrix1 = createIdentityMatrix ∧
    (resetRotation s).params.matrix2 = createIdentityMatrix ∧
    (resetRotation s).params.interpolation = 0.5 ∧
    (resetRotation s).params.mode = s.params.mode ∧
    (resetRotation s).params.gridSize = s.params.gridSize ∧
    (resetRotation s).params.rotationSpeedXY = s.params.rotationSpeedXY ∧
    (resetRotation s).params.rotationSpeedZW = s.params.rotationSpeedZW ∧
    (resetRotation s).params.rotationActiveXY = s.params.rotationActiveXY ∧
    (resetRotation s).params.rotationActiveZW = s.params.rotationActiveZW ∧
    (resetRotation s).params.particleSize = s.params.particleSize ∧
    (resetRotation s).params.spread = s.params.spread ∧
    (resetRotation s).params.colorIntensity = s.params.colorIntensity ∧
    (resetRotation s).params.colorAnimationSpeed =
      s.params.colorAnimationSpeed ∧
    (resetRotation s).params.timeScale = s.params.timeScale ∧
    (resetRotation s).params.projectionFactor = s.params.projectionFactor ∧
    (resetRotation s).params.sharpness = s.params.sharpness ∧
    (resetRotation s).params.glowIntensity = s.params.glowIntensity ∧
    (resetRotation s).params.blendFactor = s.params.blendFactor ∧
    (resetRotation s).params.opacity = s.params.opacity ∧
    (resetRotation s).params.blendingMode = s.params.blendingMode ∧
    (resetRotation s).params.depthWrite = s.params.depthWrite ∧
    (resetRotation s).params.reflectionStrength =
      s.params.reflectionStrength ∧
    (resetRotation s).params.reflectionRange = s.params.reflectionRange ∧
    (resetRotation s).params.lightIntensity = s.params.lightIntensity ∧
    (resetRotation s).params.lightSpeed = s.params.lightSpeed :=
  ⟨rfl, rfl, rfl, rfl, rfl, rfl, rfl, rfl, rfl, rfl, rfl, rfl, rfl, rfl,
   rfl, rfl, rfl, rfl, rfl, rfl, rfl, rfl, rfl, rfl, rfl, rfl, rfl⟩

/-- A JSON value as it occurs in a parameter document: null, a boolean, a
number, a string, or a flat number array (the matrices).  JavaScript
objects are dynamically typed, so a parameter field can end up holding any
of these after `Object.assign`. -/
inductive JValue where
  | jnull : JValue
  | jbool : Bool → JValue
  | jnum : ℚ → JValue
  | jstr : String → JValue
  | jarr : List ℚ → JValue
deriving DecidableEq

/-- `Object.assign(params, data)`: every key/value pair of the document is
written into the parameter object in order, with no validation; keys not
mentioned keep their previous value. -/
def objAssign (p : String → JValue) (doc : List (String × JValue)) :
    String → JValue :=
  doc.foldl (fun f kv => fun k => if k = kv.1 then kv.2 else f k) p

/-- The default parameter values, from the `params` initializer
(lines 63-91), as a key/value table. -/
def defaultParamsList : List (String × JValue) :=
  [("mode", JValue.jstr "4d-wave"),
   ("gridSize", JValue.jnum 10),
   ("rotationSpeedXY", JValue.jnum 0.5),
   ("rotationSpeedZW", JValue.jnum 0.5),
   ("rotationActiveXY", JValue.jbool true),
   ("rotationActiveZW", JValue.jbool true),
   ("particleSize", JValue.jnum 0.5),
   ("spread", JValue.jnum 3),
   ("colorIntensity", JValue.jnum 1),
   ("colorAnimationSpeed", JValue.jnum 0),
   ("timeScale", JValue.jnum 1),
   ("projectionFactor", JValue.jnum 0.15),
   ("sharpness", JValue.jnum 1),
   ("glowIntensity", JValue.jnum 0.5),
   ("blendFactor", JValue.jnum 1),
   ("opacity", JValue.jnum 1),
   ("blendingMode", JValue.jstr "Normal"),
   ("depthWrite", JValue.jbool false),
   ("matrix1", JValue.jarr createIdentityMatrix),
   ("matrix2", JValue.jarr createIdentityMatrix),
   ("interpolation", JValue.jnum 0.5),
   ("reflectionStrength", JValue.jnum 2.5),
   ("reflectionRange", JValue.jnum 5),
   ("lightIntensity", JValue.jnum 3),
   ("lightSpeed", JValue.jnum 0.3)]

/-- The default live parameter object as a field lookup. -/
def defaultParams (k : String) : JValue :=
  match defaultParamsList.lookup k with
  | some v => v
  | none => JValue.jnull

/-- Source `importParameters` (lines 647-690).  The file text either fails
`JSON.parse` (modelled as `none`), in which case the `catch` branch reports
the error and nothing has been written, or parses to a key/value document
(modelled as `some`), which `Object.assign(params, data)` applies wholesale
-- there is no validation step between parsing and assignment. -/
def importParameters (p : String → JValue)
    (doc : Option (List (String × JValue))) :
    Except String (String → JValue) :=
  match doc with
  | none =>
    Except.error "Error importing parameters. Please check the file format."
  | some kvs => Except.ok (objAssign p kvs)

/-- Well-formedness of one field of an imported parameter document,
stated from the description in the specification of the recognized options:
the mode selector is one of the two mode strings, the lattice resolution
is an integer at least 2, the interpolation fraction lies in [0, 1], the
matrices are flat 16-number arrays, the enable flags and depth-write flag
are booleans, the blending mode is one of its four names, and every other
recognized option is a number.  Unrecognized keys are malformed. -/
def recognizedField (k : String) (v : JValue) : Bool :=
  match k, v with
  | "mode", JValue.jstr s => s = "4d-wave" || s = "indras-net"
  | "gridSize", JValue.jnum q => q.den = 1 && 2 ≤ q
  | "rotationSpeedXY", JValue.jnum _ => true
  | "rotationSpeedZW", JValue.jnum _ => true
  | "rotationActiveXY", JValue.jbool _ => true
  | "rotationActiveZW", JValue.jbool _ => true
  | "particleSize", JValue.jnum _ => true
  | "spread", JValue.jnum _ => true
  | "colorIntensity", JValue.jnum _ => true
  | "colorAnimationSpeed", JValue.jnum _ => true
  | "timeScale", JValue.jnum _ => true
  | "projectionFactor", JValue.jnum _ => true
  | "sharpness", JValue.jnum _ => true
  | "glowIntensity", JValue.jnum _ => true
  | "blendFactor", JValue.jnum _ => true
  | "opacity", JValue.jnum _ => true
  | "blendingMode", JValue.jstr s =>
    s = "Normal" || s = "Additive" || s = "Subtractive" || s = "Multiply"
  | "depthWrite", JValue.jbool _ => true
  | "matrix1", JValue.jarr l => l.length = 16
  | "matrix2", JValue.jarr l => l.length = 16
  | "interpolation", JValue.jnum q => 0 ≤ q && q ≤ 1
  | "reflectionStrength", JValue.jnum _ => true
  | "reflectionRange", JValue.jnum _ => true
  | "lightIntensity", JValue.jnum _ => true
  | "lightSpeed", JValue.jnum _ => true
  | _, _ => false

/-- A parameter document is well-formed when every field it provides is a
recognized option of the right shape.  Stated from the specification for
comparison with what `importParameters` actually accepts. -/
def isWellFormedParamDoc (doc : List (String × JValue)) : Bool :=
  doc.all fun kv => recognizedField kv.1 kv.2

/-- C5 counterexample: the document assigning the string "abc" to
`gridSize` parses as JSON but is malformed, yet the import succeeds and
mutates the live parameter set (gridSize changes from the number 10 to the
string "abc") with no error surfaced. -/
theorem c5_counterexample :
    isWellFormedParamDoc [("gridSize", JValue.jstr "abc")] = false ∧
    importParameters defaultParams (some [("gridSize", JValue.jstr "abc")])
      = Except.ok (objAssign defaultParams
          [("gridSize", JValue.jstr "abc")]) ∧
    objAssign defaultParams [("gridSize", JValue.jstr "abc")] "gridSize" =
      JValue.jstr "abc" ∧
    defaultParams "gridSize" = JValue.jnum 10 := by
  refine ⟨by decide, rfl, by decide, by decide⟩

/-- C5 amended: only a document that fails to parse is rejected, and then
the rejection is atomic (the error is reported and no parameter is
written); any document that parses -- malformed or not -- is applied
wholesale by `Object.assign` with no validation. -/
theorem c5_import_no_validation (p : String → JValue)
    (doc : Option (List (String × JValue))) :
    (doc = none → importParameters p doc =
      Except.error
        "Error importing parameters. Please check the file format.") ∧
    (∀ kvs, doc = some kvs →
      importParameters p doc = Except.ok (objAssign p kvs)) := by
  constructor
  · rintro rfl
    rfl
  · rintro kvs rfl
    rfl

/-- Witness for the amended C5: a parse failure on the default parameters
reports the error (and hence leaves the parameters untouched). -/
theorem c5_import_no_validation_witness :
    importParameters defaultParams none =
      Except.error
        "Error importing parameters. Please check the file format." :=
  (c5_import_no_validation defaultParams none).1 rfl
